import Mathlib

/-!
Verification of the SoulSync VoiceMode repository.

The repository has two pieces with behavioural content, both in
`src/utils/convert_text_to_speech.ts`:

* `convertTextToSpeech` — validates its inputs, issues one call to the
  external Gemini text-to-speech service, extracts a base64 audio payload
  from the response, and returns a tagged success/failure value.
* `saveWaveFile` — wraps raw PCM bytes in a RIFF/WAVE container by
  configuring the `wav` library's FileWriter with the channel count,
  sample rate and bit depth (= sampleWidth × 8), writing the PCM data and
  closing the stream.

The embedding below models bytes as `Nat` (values 0..255), byte buffers as
`List Nat`, and the non-deterministic outside world (the upstream service)
as an explicit `Upstream` argument: the service either throws or responds
with a structured response value.  File writes are modelled by returning
the written bytes together with the path.  Outbound network traffic is
made observable through a `networkCalls` counter in the call outcome.
-/

/-- Little-endian 16-bit serialization of a natural number (2 bytes,
value taken mod 2^16). -/
def u16le (n : Nat) : List Nat :=
  [n % 256, n / 256 % 256]

/-- Little-endian 32-bit serialization of a natural number (4 bytes,
value taken mod 2^32). -/
def u32le (n : Nat) : List Nat :=
  [n % 256, n / 256 % 256, n / 65536 % 256, n / 16777216 % 256]

/-- Modelled from the spec: the 44-byte RIFF/WAVE header produced by the
`wav` library's FileWriter, which is a dependency and is not under src/.
Per the spec (§4.2): RIFF chunk descriptor, fmt sub-chunk with PCM format
code 1, channel count, sample rate, byte rate = sampleRate × channels ×
sampleWidthBytes, block align = channels × sampleWidthBytes, bits per
sample = bitDepth, then the data sub-chunk size.  The FileWriter is
configured with `bitDepth` in bits, so sampleWidthBytes = bitDepth / 8. -/
def wavHeader (channels sampleRate bitDepth dataLen : Nat) : List Nat :=
  [82, 73, 70, 70] ++ u32le (36 + dataLen) ++
  [87, 65, 86, 69] ++
  [102, 109, 116, 32] ++ u32le 16 ++ u16le 1 ++
  u16le channels ++ u32le sampleRate ++
  u32le (sampleRate * channels * (bitDepth / 8)) ++
  u16le (channels * (bitDepth / 8)) ++ u16le bitDepth ++
  [100, 97, 116, 97] ++ u32le dataLen

/-- Modelled from the spec: the full byte stream produced by the `wav`
library's FileWriter (not under src/) when one PCM buffer is written and
the stream is ended — the header followed by the PCM bytes verbatim. -/
def wavFileWriterBytes (channels sampleRate bitDepth : Nat) (pcm : List Nat) : List Nat :=
  wavHeader channels sampleRate bitDepth pcm.length ++ pcm

/-- Embedding of `saveWaveFile` (src/unnamed/part_000, lines 129-149): it
constructs a FileWriter for `filename` with options `{channels,
sampleRate: rate, bitDepth: sampleWidth * 8}`, writes `pcmData` and ends
the stream.  The result models the file produced: its path and bytes. -/
def saveWaveFile (filename : String) (pcmData : List Nat)
    (channels : Nat) (rate : Nat) (sampleWidth : Nat) : String × List Nat :=
  (filename, wavFileWriterBytes channels rate (sampleWidth * 8) pcmData)

/-- Read a little-endian 16-bit value at offset `i` of a byte list. -/
def readU16 (bs : List Nat) (i : Nat) : Nat :=
  bs.getD i 0 + 256 * bs.getD (i + 1) 0

/-- Read a little-endian 32-bit value at offset `i` of a byte list. -/
def readU32 (bs : List Nat) (i : Nat) : Nat :=
  bs.getD i 0 + 256 * bs.getD (i + 1) 0 + 65536 * bs.getD (i + 2) 0 +
    16777216 * bs.getD (i + 3) 0

/-- The audio format metadata echoed back on success (source lines
46-52 / 102-108). -/
structure AudioConfig where
  channels : Nat
  sampleRate : Nat
  sampleWidth : Nat
  bitDepth : Nat
  voice : String
deriving DecidableEq, Repr

/-- Inline data of a response part (`inlineData` with optional `data`). -/
structure InlineData where
  data : Option String
deriving DecidableEq, Repr

/-- One content part of the upstream response (optional `inlineData`). -/
structure ResponsePart where
  inlineData : Option InlineData
deriving DecidableEq, Repr

/-- Content of a candidate (optional list of parts). -/
structure Content where
  parts : Option (List ResponsePart)
deriving DecidableEq, Repr

/-- One candidate of the upstream response (optional `content`). -/
structure Candidate where
  content : Option Content
deriving DecidableEq, Repr

/-- The shape of `GenerateContentResponse` that the source inspects:
`response.candidates?.[0]?.content?.parts?.[0]?.inlineData?.data`. -/
structure GenerateContentResponse where
  candidates : Option (List Candidate)
deriving DecidableEq, Repr

/-- The behaviour of the external service for one call: the awaited
`generateContent` either throws (network error, SDK exception, ...) or
returns a response value. -/
inductive Upstream where
  | throws : Upstream
  | responds : GenerateContentResponse → Upstream
deriving DecidableEq, Repr

/-- Embedding of the optional-chaining extraction at source lines 89-90:
`response.candidates?.[0]?.content?.parts?.[0]?.inlineData?.data`. -/
def extractData (resp : GenerateContentResponse) : Option String :=
  (((((resp.candidates.bind List.head?).bind Candidate.content).bind
    Content.parts).bind List.head?).bind ResponsePart.inlineData).bind InlineData.data

/-- The six-bit value of one base64 alphabet character, `none` for a
character outside the alphabet. -/
def b64Val (c : Char) : Option Nat :=
  if 65 ≤ c.toNat ∧ c.toNat ≤ 90 then some (c.toNat - 65)
  else if 97 ≤ c.toNat ∧ c.toNat ≤ 122 then some (c.toNat - 97 + 26)
  else if 48 ≤ c.toNat ∧ c.toNat ≤ 57 then some (c.toNat - 48 + 52)
  else if c.toNat = 43 then some 62
  else if c.toNat = 47 then some 63
  else none

/-- Reassemble bytes from a list of six-bit base64 values, four values to
three bytes, with the usual truncated final group. -/
def decodeGroups : List Nat → List Nat
  | a :: b :: c :: d :: rest =>
      (a * 4 + b / 16) :: (b % 16 * 16 + c / 4) :: (c % 4 * 64 + d) :: decodeGroups rest
  | [a, b, c] => [a * 4 + b / 16, b % 16 * 16 + c / 4]
  | [a, b] => [a * 4 + b / 16]
  | _ => []

/-- Modelled from the spec: base64 decoding, `Buffer.from(data, "base64")`
at source line 96 — the decoder itself lives in the Node runtime, not
under src/.  Characters outside the base64 alphabet (including `=`
padding) are skipped, as Node does. -/
def base64Decode (s : String) : List Nat :=
  decodeGroups (s.data.filterMap b64Val)

/-- The tagged success-or-failure return value of the speech requester
(source lines 41-54): success carries the base64 string, the decoded
buffer and the echoed config; failure carries an error message. -/
inductive SpeechResult where
  | ok : String → List Nat → AudioConfig → SpeechResult
  | err : String → SpeechResult
deriving DecidableEq, Repr

/-- The observable outcome of one call: its returned value and how many
outbound network calls were issued while producing it. -/
structure CallOutcome where
  result : SpeechResult
  networkCalls : Nat
deriving DecidableEq, Repr

/-- Embedding of `convertTextToSpeech` (src/unnamed/part_000, lines
32-116).  Validation in source order, each short-circuiting before the
network call; then one `generateContent` call whose behaviour is the
`upstream` argument; extraction of the payload with the JS falsiness
check `if (!data)` (absent or empty string both fail); the catch-all
maps any exception from the awaited call to the generic failure. -/
def convertTextToSpeech (GEMINI_API_KEY textMessage modelName outputAudioVoiceName : String)
    (outputAudioChannels outputAudioRate outputAudioSampleWidth outputAudioBitDepth : Nat)
    (upstream : Upstream) : CallOutcome :=
  if GEMINI_API_KEY = "" then ⟨.err "Missing keys", 0⟩
  else if textMessage = "" then ⟨.err "Missing textMessage.", 0⟩
  else if modelName ≠ "gemini-2.5-flash-preview-tts" then
    ⟨.err "Internal Server Error, Try again after some time", 0⟩
  else
    match upstream with
    | .throws => ⟨.err "Failed to generate audio.", 1⟩
    | .responds resp =>
      match extractData resp with
      | none => ⟨.err "No audio data received from the API.", 1⟩
      | some data =>
        if data = "" then ⟨.err "No audio data received from the API.", 1⟩
        else
          ⟨.ok data (base64Decode data)
            ⟨outputAudioChannels, outputAudioRate, outputAudioSampleWidth,
              outputAudioBitDepth, outputAudioVoiceName⟩, 1⟩

/-- Embedding of the save step of `testTTS` (source lines 166-172): the
WAV encoder is fed the channel count, sample rate and sample width of an
`AudioConfig`; its `bitDepth` field is not passed. -/
def saveFromConfig (fileName : String) (pcm : List Nat) (cfg : AudioConfig) :
    String × List Nat :=
  saveWaveFile fileName pcm cfg.channels cfg.sampleRate cfg.sampleWidth

/-- Arguments of one speech-requester call, bundled. -/
structure SpeechArgs where
  apiKey : String
  textMessage : String
  modelName : String
  voiceName : String
  channels : Nat
  sampleRate : Nat
  sampleWidth : Nat
  bitDepth : Nat
deriving DecidableEq, Repr

/-- Run the speech requester on bundled arguments. -/
def runSpeechCall (a : SpeechArgs) (u : Upstream) : CallOutcome :=
  convertTextToSpeech a.apiKey a.textMessage a.modelName a.voiceName
    a.channels a.sampleRate a.sampleWidth a.bitDepth u

/-- Two independent calls to the speech requester, each with its own
arguments and its own upstream behaviour. -/
def runTwoCalls (a1 a2 : SpeechArgs) (u1 u2 : Upstream) : CallOutcome × CallOutcome :=
  (runSpeechCall a1 u1, runSpeechCall a2 u2)

example : base64Decode "QUJD" = [65, 66, 67] := by decide
example : base64Decode "QQ==" = [65] := by decide
example : (saveWaveFile "x" [1, 2, 3] 1 24000 2).2.length = 47 := by decide
example : readU16 (saveWaveFile "x" [1, 2, 3] 1 24000 2).2 34 = 16 := by decide
example : readU32 (saveWaveFile "x" [1, 2, 3] 1 24000 2).2 24 = 24000 := by decide
example : readU32 (saveWaveFile "x" [1, 2, 3] 1 24000 2).2 40 = 3 := by decide

/-- C1: for every path, PCM buffer of length N, channel count, sample rate
and sample width (each value fitting its header field), `saveWaveFile`
writes to the given path exactly 44 + N bytes: the RIFF magic, RIFF size
36 + N, WAVE and fmt magics, fmt size 16, PCM format code 1, channel
count, sample rate, byte rate = sampleRate × channels × sampleWidthBytes,
block align = channels × sampleWidthBytes, bits per sample =
sampleWidthBytes × 8, data magic, data size N, then the PCM bytes
unmodified. -/
theorem saveWaveFile_writes_canonical_wav (f : String) (pcm : List Nat) (c r w : Nat)
    (hc : c < 65536) (hr : r < 4294967296) (hbr : r * c * w < 4294967296)
    (hba : c * w < 65536) (hbps : w * 8 < 65536) (hn : 36 + pcm.length < 4294967296) :
    (saveWaveFile f pcm c r w).1 = f ∧
    (saveWaveFile f pcm c r w).2.length = 44 + pcm.length ∧
    List.take 4 (saveWaveFile f pcm c r w).2 = [82, 73, 70, 70] ∧
    readU32 (saveWaveFile f pcm c r w).2 4 = 36 + pcm.length ∧
    List.take 4 (List.drop 8 (saveWaveFile f pcm c r w).2) = [87, 65, 86, 69] ∧
    List.take 4 (List.drop 12 (saveWaveFile f pcm c r w).2) = [102, 109, 116, 32] ∧
    readU32 (saveWaveFile f pcm c r w).2 16 = 16 ∧
    readU16 (saveWaveFile f pcm c r w).2 20 = 1 ∧
    readU16 (saveWaveFile f pcm c r w).2 22 = c ∧
    readU32 (saveWaveFile f pcm c r w).2 24 = r ∧
    readU32 (saveWaveFile f pcm c r w).2 28 = r * c * w ∧
    readU16 (saveWaveFile f pcm c r w).2 32 = c * w ∧
    readU16 (saveWaveFile f pcm c r w).2 34 = w * 8 ∧
    List.take 4 (List.drop 36 (saveWaveFile f pcm c r w).2) = [100, 97, 116, 97] ∧
    readU32 (saveWaveFile f pcm c r w).2 40 = pcm.length ∧
    List.drop 44 (saveWaveFile f pcm c r w).2 = pcm := by
  refine ⟨rfl, ?_, ?_, ?_, ?_, ?_, ?_, ?_, ?_, ?_, ?_, ?_, ?_, ?_, ?_, rfl⟩ <;>
    simp [saveWaveFile, wavFileWriterBytes, wavHeader, u16le, u32le, readU16, readU32,
      List.getD] <;> omega

/-- Witness for C1 at a concrete input: 3 PCM bytes with the source's
default format (mono, 24000 Hz, 2-byte samples). -/
theorem saveWaveFile_writes_canonical_wav_witness :
    (saveWaveFile "out.wav" [7, 8, 9] 1 24000 2).2.length = 44 + 3 ∧
    readU16 (saveWaveFile "out.wav" [7, 8, 9] 1 24000 2).2 34 = 16 ∧
    readU32 (saveWaveFile "out.wav" [7, 8, 9] 1 24000 2).2 40 = 3 := by
  have h := saveWaveFile_writes_canonical_wav "out.wav" [7, 8, 9] 1 24000 2
    (by decide) (by decide) (by decide) (by decide) (by decide) (by decide)
  exact ⟨h.2.1, h.2.2.2.2.2.2.2.2.2.2.2.2.1, h.2.2.2.2.2.2.2.2.2.2.2.2.2.2.1⟩

/-- C8: for every path and format parameters, a zero-length PCM buffer
still yields a file that is exactly the 44-byte header with data size 0. -/
theorem saveWaveFile_empty_pcm (f : String) (c r w : Nat) :
    (saveWaveFile f [] c r w).2 = wavHeader c r (w * 8) 0 ∧
    (saveWaveFile f [] c r w).2.length = 44 ∧
    readU32 (saveWaveFile f [] c r w).2 40 = 0 := by
  refine ⟨?_, ?_, ?_⟩ <;>
    simp [saveWaveFile, wavFileWriterBytes, wavHeader, u16le, u32le, readU32, List.getD]

/-- C7: the bits-per-sample written to the file is derived solely from the
sample width; the `bitDepth` field of an `AudioConfig` is never consulted
by the encoding path, so changing it (even to a value inconsistent with
sampleWidth × 8) leaves the encoded file identical. -/
theorem saveWaveFile_ignores_config_bitDepth (f : String) (pcm : List Nat)
    (cfg : AudioConfig) (b1 b2 : Nat) (hw : cfg.sampleWidth * 8 < 65536) :
    saveFromConfig f pcm { cfg with bitDepth := b1 } =
      saveFromConfig f pcm { cfg with bitDepth := b2 } ∧
    readU16 (saveFromConfig f pcm cfg).2 34 = cfg.sampleWidth * 8 := by
  refine ⟨rfl, ?_⟩
  simp [saveFromConfig, saveWaveFile, wavFileWriterBytes, wavHeader, u16le, u32le,
    readU16, List.getD]
  omega

/-- Witness for C7 at a concrete input: two wildly inconsistent bitDepth
values produce the same file, whose header records sampleWidth × 8. -/
theorem saveWaveFile_ignores_config_bitDepth_witness :
    saveFromConfig "a.wav" [5] ⟨1, 24000, 2, 999, "Zephyr"⟩ =
      saveFromConfig "a.wav" [5] ⟨1, 24000, 2, 7, "Zephyr"⟩ ∧
    readU16 (saveFromConfig "a.wav" [5] ⟨1, 24000, 2, 999, "Zephyr"⟩).2 34 = 16 := by
  have h := saveWaveFile_ignores_config_bitDepth "a.wav" [5]
    ⟨1, 24000, 2, 999, "Zephyr"⟩ 999 7 (by decide)
  exact ⟨h.1, h.2⟩

/-- C2: validation runs in the fixed order apiKey, text, model, each check
short-circuiting: empty apiKey fails with "Missing keys" whatever the
other arguments; non-empty apiKey with empty text fails with
"Missing textMessage."; a wrong model after those two checks fails with
the generic retry message; in all three cases no network call is made. -/
theorem convertTextToSpeech_validation_order (key text model voice : String)
    (ch rate width depth : Nat) (u : Upstream) :
    (key = "" →
      convertTextToSpeech key text model voice ch rate width depth u =
        ⟨.err "Missing keys", 0⟩) ∧
    (key ≠ "" → text = "" →
      convertTextToSpeech key text model voice ch rate width depth u =
        ⟨.err "Missing textMessage.", 0⟩) ∧
    (key ≠ "" → text ≠ "" → model ≠ "gemini-2.5-flash-preview-tts" →
      convertTextToSpeech key text model voice ch rate width depth u =
        ⟨.err "Internal Server Error, Try again after some time", 0⟩) := by
  refine ⟨?_, ?_, ?_⟩ <;> intros <;>
    simp [convertTextToSpeech, *]

/-- Witness for C2 at concrete inputs: empty key (with empty text and a
wrong model too), then empty text, then a wrong model. -/
theorem convertTextToSpeech_validation_order_witness :
    convertTextToSpeech "" "" "bad-model" "Zephyr" 1 24000 2 16 .throws =
      ⟨.err "Missing keys", 0⟩ ∧
    convertTextToSpeech "k" "" "bad-model" "Zephyr" 1 24000 2 16 .throws =
      ⟨.err "Missing textMessage.", 0⟩ ∧
    convertTextToSpeech "k" "hi" "bad-model" "Zephyr" 1 24000 2 16 .throws =
      ⟨.err "Internal Server Error, Try again after some time", 0⟩ := by
  refine ⟨?_, ?_, ?_⟩
  · exact (convertTextToSpeech_validation_order "" "" "bad-model" "Zephyr"
      1 24000 2 16 .throws).1 rfl
  · exact (convertTextToSpeech_validation_order "k" "" "bad-model" "Zephyr"
      1 24000 2 16 .throws).2.1 (by decide) rfl
  · exact (convertTextToSpeech_validation_order "k" "hi" "bad-model" "Zephyr"
      1 24000 2 16 .throws).2.2 (by decide) (by decide) (by decide)

/-- C3: when validation passes and the upstream response carries base64
payload P (non-empty, per the falsiness check) at the first candidate's
first content part's inline data, the result is success with
audioBase64 = P and audioBuffer = base64-decode(P). -/
theorem convertTextToSpeech_success_payload (key text voice : String)
    (ch rate width depth : Nat) (resp : GenerateContentResponse) (P : String)
    (hk : key ≠ "") (ht : text ≠ "") (hP : extractData resp = some P) (hne : P ≠ "") :
    convertTextToSpeech key text "gemini-2.5-flash-preview-tts" voice ch rate width depth
      (.responds resp) =
      ⟨.ok P (base64Decode P) ⟨ch, rate, width, depth, voice⟩, 1⟩ := by
  simp [convertTextToSpeech, hk, ht, hP, hne]

/-- A concrete upstream response whose first candidate's first part
carries the base64 payload "QUJD" (which decodes to bytes 65, 66, 67). -/
def respQUJD : GenerateContentResponse :=
  ⟨some [⟨some ⟨some [⟨some ⟨some "QUJD"⟩⟩]⟩⟩]⟩

/-- Witness for C3 at a concrete input. -/
theorem convertTextToSpeech_success_payload_witness :
    convertTextToSpeech "k" "hi" "gemini-2.5-flash-preview-tts" "Zephyr" 1 24000 2 16
      (.responds respQUJD) =
      ⟨.ok "QUJD" (base64Decode "QUJD") ⟨1, 24000, 2, 16, "Zephyr"⟩, 1⟩ ∧
    base64Decode "QUJD" = [65, 66, 67] := by
  refine ⟨convertTextToSpeech_success_payload "k" "hi" "Zephyr" 1 24000 2 16 respQUJD
    "QUJD" (by decide) (by decide) (by decide) (by decide), by decide⟩

/-- C4: the requester returns a tagged success-or-failure value for every
input and never throws; when the upstream call throws (after validation
passed, so the call was actually made) the result is exactly the generic
failure "Failed to generate audio.". -/
theorem convertTextToSpeech_swallows_exceptions (key text model voice : String)
    (ch rate width depth : Nat)
    (hk : key ≠ "") (ht : text ≠ "") (hm : model = "gemini-2.5-flash-preview-tts") :
    (convertTextToSpeech key text model voice ch rate width depth .throws =
      ⟨.err "Failed to generate audio.", 1⟩) ∧
    (∀ (k t m v : String) (c r w d : Nat) (u : Upstream),
      (∃ b64 buf cfg,
        (convertTextToSpeech k t m v c r w d u).result = .ok b64 buf cfg) ∨
      (∃ e, (convertTextToSpeech k t m v c r w d u).result = .err e)) := by
  constructor
  · subst hm
    simp [convertTextToSpeech, hk, ht]
  · intro k t m v c r w d u
    cases hres : (convertTextToSpeech k t m v c r w d u).result with
    | ok b64 buf cfg => exact Or.inl ⟨b64, buf, cfg, rfl⟩
    | err e => exact Or.inr ⟨e, rfl⟩

/-- Witness for C4 at a concrete input: valid arguments, throwing
upstream. -/
theorem convertTextToSpeech_swallows_exceptions_witness :
    convertTextToSpeech "k" "hi" "gemini-2.5-flash-preview-tts" "Zephyr" 1 24000 2 16
      .throws = ⟨.err "Failed to generate audio.", 1⟩ :=
  (convertTextToSpeech_swallows_exceptions "k" "hi" "gemini-2.5-flash-preview-tts"
    "Zephyr" 1 24000 2 16 (by decide) (by decide) rfl).1

/-- C5: every success result echoes the caller's requested channel count,
sample rate, sample width, bit depth and voice name back in its
AudioConfig, unchanged. -/
theorem convertTextToSpeech_config_echo (key text model voice : String)
    (ch rate width depth : Nat) (u : Upstream) (b64 : String) (buf : List Nat)
    (cfg : AudioConfig)
    (h : (convertTextToSpeech key text model voice ch rate width depth u).result =
      .ok b64 buf cfg) :
    cfg = ⟨ch, rate, width, depth, voice⟩ := by
  unfold convertTextToSpeech at h
  repeat' split at h
  all_goals simp_all

/-- Witness for C5 at a concrete input. -/
theorem convertTextToSpeech_config_echo_witness :
    (⟨3, 48000, 4, 99, "Kore"⟩ : AudioConfig) = ⟨3, 48000, 4, 99, "Kore"⟩ :=
  convertTextToSpeech_config_echo "k" "hi" "gemini-2.5-flash-preview-tts" "Kore"
    3 48000 4 99 (.responds respQUJD) "QUJD" (base64Decode "QUJD")
    ⟨3, 48000, 4, 99, "Kore"⟩ (by decide)

/-- C6: when validation passes and the optional chain
candidates[0].content.parts[0].inlineData.data is absent at any link, the
result is failure with exactly "No audio data received from the API.". -/
theorem convertTextToSpeech_missing_payload (key text voice : String)
    (ch rate width depth : Nat) (resp : GenerateContentResponse)
    (hk : key ≠ "") (ht : text ≠ "") (hP : extractData resp = none) :
    convertTextToSpeech key text "gemini-2.5-flash-preview-tts" voice ch rate width depth
      (.responds resp) = ⟨.err "No audio data received from the API.", 1⟩ := by
  simp [convertTextToSpeech, hk, ht, hP]

/-- Witness for C6 at a concrete input: a response with no candidates. -/
theorem convertTextToSpeech_missing_payload_witness :
    convertTextToSpeech "k" "hi" "gemini-2.5-flash-preview-tts" "Zephyr" 1 24000 2 16
      (.responds ⟨none⟩) = ⟨.err "No audio data received from the API.", 1⟩ :=
  convertTextToSpeech_missing_payload "k" "hi" "Zephyr" 1 24000 2 16 ⟨none⟩
    (by decide) (by decide) (by decide)

/-- C10: a present-but-empty inline payload is treated like an absent one
(the JS check is on falsiness): the result is the same "No audio data
received from the API." failure, and consequently every success result
carries a non-empty audioBase64 string. -/
theorem convertTextToSpeech_empty_payload_rejected (key text voice : String)
    (ch rate width depth : Nat) (resp : GenerateContentResponse)
    (hk : key ≠ "") (ht : text ≠ "") (hP : extractData resp = some "") :
    convertTextToSpeech key text "gemini-2.5-flash-preview-tts" voice ch rate width depth
      (.responds resp) = ⟨.err "No audio data received from the API.", 1⟩ ∧
    (∀ (k t m v : String) (c r w d : Nat) (u : Upstream) (b64 : String)
      (buf : List Nat) (cfg : AudioConfig),
      (convertTextToSpeech k t m v c r w d u).result = .ok b64 buf cfg → b64 ≠ "") := by
  constructor
  · simp [convertTextToSpeech, hk, ht, hP]
  · intro k t m v c r w d u b64 buf cfg h
    unfold convertTextToSpeech at h
    repeat' split at h
    all_goals simp_all

/-- A concrete upstream response whose first candidate's first part
carries a present but empty inline payload. -/
def respEmptyPayload : GenerateContentResponse :=
  ⟨some [⟨some ⟨some [⟨some ⟨some ""⟩⟩]⟩⟩]⟩

/-- Witness for C10 at a concrete input. -/
theorem convertTextToSpeech_empty_payload_rejected_witness :
    convertTextToSpeech "k" "hi" "gemini-2.5-flash-preview-tts" "Zephyr" 1 24000 2 16
      (.responds respEmptyPayload) =
      ⟨.err "No audio data received from the API.", 1⟩ :=
  (convertTextToSpeech_empty_payload_rejected "k" "hi" "Zephyr" 1 24000 2 16
    respEmptyPayload (by decide) (by decide) (by decide)).1

/-- C9: the requester retains no state between calls — in a pair of
independent calls, the first call's outcome is a function of its own
arguments and upstream behaviour only (unaffected by the second call's),
and symmetrically; identical arguments and upstream behaviour always
yield identical outcomes. -/
theorem speechRequester_calls_independent (a1 a2 b1 b2 : SpeechArgs)
    (u1 u2 v1 v2 : Upstream) :
    (runTwoCalls a1 a2 u1 u2).1 = (runTwoCalls a1 b2 u1 v2).1 ∧
    (runTwoCalls a1 a2 u1 u2).2 = (runTwoCalls b1 a2 v1 u2).2 ∧
    (runTwoCalls a1 a1 u1 u1).1 = (runTwoCalls a1 a1 u1 u1).2 :=
  ⟨rfl, rfl, rfl⟩
